import Mathlib

/-!
Shallow embedding of `src/wave-plus-reader.py` (class `WavePlusReader`).

Modelling conventions:
* Byte strings are `List Nat`; a well-formed byte is `< 256`, stated as a
  hypothesis where a claim needs it.  `struct.unpack` length mismatches
  (Python `struct.error`, the spec's `DecodeError`) are modelled with
  `Except DecodeError`.
* Python `float` arithmetic is modelled by exact arithmetic: `ℚ` where the
  code only uses field operations, `ℝ` where `math.exp` appears.
* The asynchronous pieces of `read_command_data` are modelled by explicit
  state passing: the persistent `self.command_data` slot comes in as a
  parameter and the updated slot goes out in the result, and the
  notifications delivered while the exchange waits are a `List (List Nat)`
  (the handler overwrites the slot, so the latest one wins).  The GATT
  subscribe/unsubscribe side effects are recorded as an action trace.
-/

namespace WavePlus

/-- Failure raised by the binary decoders when the input length does not
match the `struct` format (Python `struct.error`, the spec's `DecodeError`). -/
inductive DecodeError where
  | lengthMismatch
  deriving DecidableEq, Repr

/-- A little-endian unsigned 16-bit value from two bytes. -/
def le16 (lo hi : Nat) : Nat := lo + 256 * hi

/-- A little-endian unsigned 32-bit value from four bytes. -/
def le32 (b0 b1 b2 b3 : Nat) : Nat := b0 + 256 * b1 + 65536 * b2 + 16777216 * b3

/-- `struct.unpack("<4B8H", b)` from `read_measurements`: four unsigned
8-bit fields followed by eight unsigned 16-bit little-endian fields.
The format's size is 4 + 8*2 = 20 bytes and `struct.unpack` demands the
input length to match it exactly. -/
def unpack4B8H (b : List Nat) : Except DecodeError (List Nat) :=
  if b.length = 20 then
    .ok [b.getD 0 0, b.getD 1 0, b.getD 2 0, b.getD 3 0,
      le16 (b.getD 4 0) (b.getD 5 0), le16 (b.getD 6 0) (b.getD 7 0),
      le16 (b.getD 8 0) (b.getD 9 0), le16 (b.getD 10 0) (b.getD 11 0),
      le16 (b.getD 12 0) (b.getD 13 0), le16 (b.getD 14 0) (b.getD 15 0),
      le16 (b.getD 16 0) (b.getD 17 0), le16 (b.getD 18 0) (b.getD 19 0)]
  else .error .lengthMismatch

/-- `struct.unpack("<L12B6H", b)` from `read_command_data`: one unsigned
32-bit little-endian field, twelve unsigned 8-bit fields, six unsigned
16-bit little-endian fields; size 4 + 12 + 6*2 = 28 bytes, exact. -/
def unpackL12B6H (b : List Nat) : Except DecodeError (List Nat) :=
  if b.length = 28 then
    .ok [le32 (b.getD 0 0) (b.getD 1 0) (b.getD 2 0) (b.getD 3 0),
      b.getD 4 0, b.getD 5 0, b.getD 6 0, b.getD 7 0, b.getD 8 0, b.getD 9 0,
      b.getD 10 0, b.getD 11 0, b.getD 12 0, b.getD 13 0, b.getD 14 0, b.getD 15 0,
      le16 (b.getD 16 0) (b.getD 17 0), le16 (b.getD 18 0) (b.getD 19 0),
      le16 (b.getD 20 0) (b.getD 21 0), le16 (b.getD 22 0) (b.getD 23 0),
      le16 (b.getD 24 0) (b.getD 25 0), le16 (b.getD 26 0) (b.getD 27 0)]
  else .error .lengthMismatch

/-- `struct.unpack("<L12B6H", self.command_data[2:])`: the first two bytes
of a captured command payload are skipped before decoding. -/
def decodeCommandPayload (data : List Nat) : Except DecodeError (List Nat) :=
  unpackL12B6H (data.drop 2)

/-- Little-endian encoder for the measurement layout (4 8-bit values then
8 16-bit values), the inverse direction of `unpack4B8H`. -/
def encodeMeasurement (f0 f1 f2 f3 g0 g1 g2 g3 g4 g5 g6 g7 : Nat) : List Nat :=
  [f0, f1, f2, f3,
    g0 % 256, g0 / 256, g1 % 256, g1 / 256, g2 % 256, g2 / 256, g3 % 256, g3 / 256,
    g4 % 256, g4 / 256, g5 % 256, g5 / 256, g6 % 256, g6 / 256, g7 % 256, g7 / 256]

/-! ### Discovery (`WavePlusReader.discover`) -/

/-- A scanned BLE device: `device.address`, `device.name` and the key set of
`device.metadata['manufacturer_data']`. -/
structure BTDevice where
  address : String
  name : String
  manufacturer_data : List Nat
  deriving DecidableEq, Repr

/-- One device handled inside the scan loop of `discover`: keep it when its
manufacturer data holds key `0x0334` and the guard
`len(found) == 0 or any(fd.address != device.address for fd in found)`
passes (this is the guard exactly as the source writes it). -/
def discoverStep (found : List BTDevice) (device : BTDevice) : List BTDevice :=
  if 0x0334 ∈ device.manufacturer_data then
    if found.length = 0 ∨ found.any (fun fd => fd.address != device.address) then
      found ++ [device]
    else found
  else found

/-- One scan pass: every advertising device is run through `discoverStep`. -/
def discoverPass (found devices : List BTDevice) : List BTDevice :=
  devices.foldl discoverStep found

/-- `discover`: the scan passes in order, starting from the accumulated
`self.found_devices` state. -/
def discover (found : List BTDevice) (scans : List (List BTDevice)) : List BTDevice :=
  scans.foldl discoverPass found

/-- The return value of `discover`: `len(self.found_devices)`. -/
def discoverReturn (found : List BTDevice) (scans : List (List BTDevice)) : Nat :=
  (discover found scans).length

/-- Concrete Airthings device (vendor id `0x0334` present). -/
def devA : BTDevice := ⟨"AA:00", "Wave Plus A", [0x0334]⟩

/-- Second concrete Airthings device with a different address. -/
def devB : BTDevice := ⟨"BB:11", "Wave Plus B", [0x0334]⟩

/-- Concrete non-Airthings device (no `0x0334` key). -/
def devC : BTDevice := ⟨"CC:22", "Other", [0x004c]⟩

/-! ### Command Exchange (`WavePlusReader.read_command_data`) -/

/-- Python's built-in `round` on an exact value: round half to even. -/
def pyRound (q : ℚ) : ℤ :=
  if q - ⌊q⌋ = 1 / 2 then (if 2 ∣ ⌊q⌋ then ⌊q⌋ else ⌊q⌋ + 1) else round q

/-- The battery-percentage mapping of `read_command_data`:
`max(0, min(100, round((v - 2.2) / (3.2 - 2.2) * 100)))`. -/
def batteryPercentage (v : ℚ) : ℤ :=
  max 0 (min 100 (pyRound ((v - 22 / 10) / (32 / 10 - 22 / 10) * 100)))

/-- The dictionary built by `read_command_data`. -/
structure CommandResult where
  illuminance : ℚ
  battery_voltage : ℚ
  battery_percentage : ℤ
  deriving DecidableEq, Repr

/-- The defaults `{illuminance: 0, battery_voltage: 0, battery_percentage: 0}`
installed before the wait. -/
def defaultCommandData : CommandResult := ⟨0, 0, 0⟩

/-- The decode step run when `self.command_data is not None`:
`illuminance = raw[2]`, `battery_voltage = raw[17] / 1000.0`, then the
clamp-and-round percentage. -/
def formatCommandData (raw : List Nat) : CommandResult :=
  let bv : ℚ := (raw.getD 17 0 : ℚ) / 1000
  ⟨(raw.getD 2 0 : ℚ), bv, batteryPercentage bv⟩

/-- GATT side effects performed by `read_command_data`, in program order. -/
inductive BleAction where
  | startNotify
  | writeTrigger
  | stopNotify
  deriving DecidableEq, Repr

deriving instance DecidableEq for Except

/-- Outcome of one `read_command_data` invocation: the returned dictionary
(or the propagated `DecodeError`), the value of the `self.command_data`
slot afterwards, and the trace of GATT actions actually executed. -/
structure ExchangeOutcome where
  result : Except DecodeError CommandResult
  slot : Option (List Nat)
  actions : List BleAction
  deriving DecidableEq, Repr

/-- `read_command_data`, with the persistent `self.command_data` slot passed
in explicitly and `notifs` the notification payloads delivered while the
2-second wait runs (each one makes `command_data_handler` overwrite the
slot, so the latest wins; the local `event` is never set by the handler, so
the wait always runs to its timeout).  The slot is *not* reset on entry.
If the slot is non-empty afterwards the payload is decoded; a decode
failure propagates before `stop_notify` runs (there is no try/finally). -/
def read_command_data (slot : Option (List Nat)) (notifs : List (List Nat)) :
    ExchangeOutcome :=
  let slot' := notifs.foldl (fun _ d => some d) slot
  match slot' with
  | none => ⟨.ok defaultCommandData, none, [.startNotify, .writeTrigger, .stopNotify]⟩
  | some data =>
    match decodeCommandPayload data with
    | .ok raw =>
        ⟨.ok (formatCommandData raw), some data, [.startNotify, .writeTrigger, .stopNotify]⟩
    | .error e => ⟨.error e, some data, [.startNotify, .writeTrigger]⟩

/-! ### Derived-quantity calculator -/

/-- `calc_saturation_vapor_pressure(t, p)`:
`ewt = 6.112 * exp((17.62*t)/(243.12+t))`,
`fp = 1.0016 + 3.15*10**-6*p - 0.074/p`, result `fp * ewt`. -/
noncomputable def calc_saturation_vapor_pressure (t p : ℝ) : ℝ :=
  let ewt := 6.112 * Real.exp ((17.62 * t) / (243.12 + t))
  let fp := 1.0016 + 3.15 * (10 : ℝ) ^ (-6 : ℤ) * p - 0.074 / p
  fp * ewt

/-- `calc_absolute_humidity(rh, t, p)`:
`ah = (rh * svp) / (461.5 * (t + 273.15))`, result `ah * 1000`. -/
noncomputable def calc_absolute_humidity (rh t p : ℝ) : ℝ :=
  let svp := calc_saturation_vapor_pressure t p
  let ah := (rh * svp) / (461.5 * (t + 273.15))
  ah * 1000

/-! ### Device session (`connect` / `read_and_format`) -/

/-- A value stored in the `formatted_data` dictionary. -/
inductive Val where
  | num : ℝ → Val
  | str : String → Val

/-- `read_and_format`, given the decoded measurement tuple, the serial
string, the command-exchange dictionary and the timestamp string; builds
the `formatted_data` dictionary in the insertion order of the source. -/
noncomputable def read_and_format (m : List Nat) (serial_number : String)
    (command_data : CommandResult) (timestamp : String) : List (String × Val) :=
  let temperature : ℝ := (m.getD 6 0 : ℝ) / 100
  let pressure : ℝ := (m.getD 7 0 : ℝ) / 50
  let humidity_rel : ℝ := (m.getD 1 0 : ℝ) / 2
  [("radon_day_average", .num (m.getD 4 0 : ℝ)),
    ("radon_total_average", .num (m.getD 5 0 : ℝ)),
    ("temperature", .num temperature),
    ("pressure", .num pressure),
    ("co2", .num ((m.getD 8 0 : ℝ) * 1.0)),
    ("voc", .num ((m.getD 9 0 : ℝ) * 1.0)),
    ("timestamp", .str timestamp),
    ("serial_no", .str serial_number),
    ("illuminance", .num (command_data.illuminance : ℝ)),
    ("battery_voltage", .num (command_data.battery_voltage : ℝ)),
    ("battery_percentage", .num (command_data.battery_percentage : ℝ)),
    ("humidity_rel", .num humidity_rel),
    ("humidity_abs", .num (calc_absolute_humidity humidity_rel temperature pressure))]

/-- `read_serial_number`: model number string concatenated with the serial
number string. -/
def read_serial_number (model_number serial_number : String) : String :=
  model_number ++ serial_number

/-- `connect`, with every characteristic read passed in explicitly: when the
service list is empty the result is the *empty* dictionary `{}`; otherwise
the measurement bytes are decoded (a `DecodeError` propagates), the command
exchange runs (its `DecodeError` propagates too) and `read_and_format`
assembles the reading. -/
noncomputable def connect (services : List String) (rawMeas : List Nat)
    (model_number serial_number : String) (slot : Option (List Nat))
    (notifs : List (List Nat)) (timestamp : String) :
    Except DecodeError (List (String × Val)) :=
  if services.isEmpty then .ok []
  else
    match unpack4B8H rawMeas with
    | .error e => .error e
    | .ok m =>
      match (read_command_data slot notifs).result with
      | .error e => .error e
      | .ok cmd =>
          .ok (read_and_format m (read_serial_number model_number serial_number)
            cmd timestamp)

/-! ### Claim C1 -/

/-- **C1**: claimed that a device advertising vendor id `0x0334` is
accumulated exactly once across scan passes.  The guard of `discover`
tests `any(fd.address != device.address ...)` instead of `all(...)`: as
soon as the found list holds some *other* device, a re-advertised device
is appended again.  With devices `A`, `B` both seen in pass one and `A`
re-advertised in pass two, `A` ends up in the list twice and `discover`
returns 3; a device without the vendor id is still always excluded. -/
theorem C1_discover_appends_duplicate :
    (discover [] [[devA, devB], [devA]]).count devA = 2 ∧
      discoverReturn [] [[devA, devB], [devA]] = 3 ∧
      devC ∉ discover [] [[devA, devB, devC], [devA]] := by decide

/-! ### Claim C3 -/

/-- **C3** (amended): decoding the measurement characteristic succeeds for
every input of exactly **20** bytes (the `"<4B8H"` format is 4 + 8·2 = 20
bytes, not 16), yielding the 4 unsigned 8-bit fields followed by the 8
unsigned 16-bit little-endian fields, and fails with a `DecodeError` for
every input whose length is not 20. -/
theorem C3_measurement_decode (b : List Nat) :
    (b.length = 20 →
      unpack4B8H b = .ok [b.getD 0 0, b.getD 1 0, b.getD 2 0, b.getD 3 0,
        le16 (b.getD 4 0) (b.getD 5 0), le16 (b.getD 6 0) (b.getD 7 0),
        le16 (b.getD 8 0) (b.getD 9 0), le16 (b.getD 10 0) (b.getD 11 0),
        le16 (b.getD 12 0) (b.getD 13 0), le16 (b.getD 14 0) (b.getD 15 0),
        le16 (b.getD 16 0) (b.getD 17 0), le16 (b.getD 18 0) (b.getD 19 0)]) ∧
    (b.length ≠ 20 → unpack4B8H b = .error .lengthMismatch) := by
  constructor <;> intro h <;> simp [unpack4B8H, h]

/-- **C3** counterexample to the claim as stated: a 16-byte input does not
decode; `struct.unpack("<4B8H", ...)` rejects it. -/
theorem C3_counterexample :
    (List.replicate 16 0).length = 16 ∧
      unpack4B8H (List.replicate 16 0) = .error .lengthMismatch := by decide

/-- **C3** witness: the 20-byte input `[0, …, 19]` decodes. -/
theorem C3_measurement_decode_witness :
    (List.range 20).length = 20 ∧
      unpack4B8H (List.range 20) =
        .ok [0, 1, 2, 3, 1284, 1798, 2312, 2826, 3340, 3854, 4368, 4882] := by
  refine ⟨by decide, ?_⟩
  have h := (C3_measurement_decode (List.range 20)).1 (by decide)
  rw [h]
  decide

/-! ### Claim C8 -/

/-- **C8** (amended): for every tuple of 4 values in u8 range followed by
8 values in u16 range, encoding into the fixed little-endian measurement
layout (which is **20** bytes, not 16) and decoding reproduces the tuple. -/
theorem C8_roundtrip (f0 f1 f2 f3 g0 g1 g2 g3 g4 g5 g6 g7 : Nat)
    (h0 : f0 < 256) (h1 : f1 < 256) (h2 : f2 < 256) (h3 : f3 < 256)
    (k0 : g0 < 65536) (k1 : g1 < 65536) (k2 : g2 < 65536) (k3 : g3 < 65536)
    (k4 : g4 < 65536) (k5 : g5 < 65536) (k6 : g6 < 65536) (k7 : g7 < 65536) :
    unpack4B8H (encodeMeasurement f0 f1 f2 f3 g0 g1 g2 g3 g4 g5 g6 g7) =
      .ok [f0, f1, f2, f3, g0, g1, g2, g3, g4, g5, g6, g7] := by
  simp [unpack4B8H, encodeMeasurement, le16, Nat.mod_add_div]

/-- **C8** counterexample to the claim as stated: the encoded layout is 20
bytes, never 16, and a 16-byte truncation of it does not decode. -/
theorem C8_counterexample :
    (encodeMeasurement 1 2 3 4 500 600 700 800 900 1000 1100 1200).length = 20 ∧
      (encodeMeasurement 1 2 3 4 500 600 700 800 900 1000 1100 1200).length ≠ 16 ∧
      unpack4B8H ((encodeMeasurement 1 2 3 4 500 600 700 800 900 1000 1100 1200).take 16) =
        .error .lengthMismatch := by decide

/-- **C8** witness: a concrete in-range tuple round-trips. -/
theorem C8_roundtrip_witness :
    unpack4B8H (encodeMeasurement 1 2 3 4 500 600 700 800 900 1000 1100 1200) =
      .ok [1, 2, 3, 4, 500, 600, 700, 800, 900, 1000, 1100, 1200] :=
  C8_roundtrip 1 2 3 4 500 600 700 800 900 1000 1100 1200
    (by decide) (by decide) (by decide) (by decide) (by decide) (by decide)
    (by decide) (by decide) (by decide) (by decide) (by decide) (by decide)

/-! ### Claim C9 -/

/-- **C9** (amended): decoding a captured command payload succeeds for
every payload of **exactly** 30 bytes (2-byte header skipped, then
`"<L12B6H"` needs exactly 28 bytes), yielding one 32-bit little-endian
field, 12 unsigned 8-bit fields and 6 unsigned 16-bit little-endian
fields; every payload of any other length — shorter *or longer* — fails
with a `DecodeError`. -/
theorem C9_command_decode (p : List Nat) :
    (p.length = 30 →
      decodeCommandPayload p =
        .ok [le32 ((p.drop 2).getD 0 0) ((p.drop 2).getD 1 0)
            ((p.drop 2).getD 2 0) ((p.drop 2).getD 3 0),
          (p.drop 2).getD 4 0, (p.drop 2).getD 5 0, (p.drop 2).getD 6 0,
          (p.drop 2).getD 7 0, (p.drop 2).getD 8 0, (p.drop 2).getD 9 0,
          (p.drop 2).getD 10 0, (p.drop 2).getD 11 0, (p.drop 2).getD 12 0,
          (p.drop 2).getD 13 0, (p.drop 2).getD 14 0, (p.drop 2).getD 15 0,
          le16 ((p.drop 2).getD 16 0) ((p.drop 2).getD 17 0),
          le16 ((p.drop 2).getD 18 0) ((p.drop 2).getD 19 0),
          le16 ((p.drop 2).getD 20 0) ((p.drop 2).getD 21 0),
          le16 ((p.drop 2).getD 22 0) ((p.drop 2).getD 23 0),
          le16 ((p.drop 2).getD 24 0) ((p.drop 2).getD 25 0),
          le16 ((p.drop 2).getD 26 0) ((p.drop 2).getD 27 0)]) ∧
    (p.length ≠ 30 → decodeCommandPayload p = .error .lengthMismatch) := by
  constructor <;> intro h
  · have hl : (p.drop 2).length = 28 := by simp [h]
    simp [decodeCommandPayload, unpackL12B6H, hl]
  · have hl : ¬((p.drop 2).length = 28) := by
      simp only [List.length_drop]
      omega
    rw [decodeCommandPayload, unpackL12B6H, if_neg hl]

/-- **C9** counterexample to the claim as stated: a 31-byte payload is at
least 30 bytes long yet fails to decode (`struct.unpack` needs the exact
size). -/
theorem C9_counterexample :
    30 ≤ (List.replicate 31 0).length ∧
      decodeCommandPayload (List.replicate 31 0) = .error .lengthMismatch := by decide

/-- **C9** witness: the 30-byte payload `[0, …, 29]` decodes. -/
theorem C9_command_decode_witness :
    (List.range 30).length = 30 ∧
      decodeCommandPayload (List.range 30) =
        .ok [84148994, 6, 7, 8, 9, 10, 11, 12, 13, 14, 15, 16, 17,
          4882, 5396, 5910, 6424, 6938, 7452] := by
  refine ⟨by decide, ?_⟩
  have h := (C9_command_decode (List.range 30)).1 (by decide)
  rw [h]
  decide

/-! ### Claim C2 -/

/-- **C2** (amended): a timed-out invocation (no notification delivered)
returns exactly `{illuminance: 0, battery_voltage: 0, battery_percentage: 0}`
only when no payload was ever captured: the `self.command_data` slot is a
persistent attribute that no invocation resets, so an invocation that
times out while the slot still holds a payload captured during an earlier
invocation decodes that stale payload, and the slot survives unchanged. -/
theorem C2_timeout_and_stale_slot (slot : Option (List Nat))
    (notifs : List (List Nat)) (hq : notifs = []) :
    (read_command_data none notifs).result = .ok defaultCommandData ∧
      (∀ p, (read_command_data (some p) notifs).result =
        (decodeCommandPayload p).map formatCommandData) ∧
      (read_command_data slot notifs).slot = slot := by
  subst hq
  refine ⟨rfl, fun p => ?_, ?_⟩
  · rcases hd : decodeCommandPayload p with e | raw <;>
      simp [read_command_data, hd, Except.map]
  · rcases slot with _ | p
    · rfl
    · rcases hd : decodeCommandPayload p with e | raw <;>
        simp [read_command_data, hd]

/-- **C2** counterexample to the claim as stated: capture a valid 30-byte
payload in a first invocation, then run a second invocation in which no
notification arrives; the second invocation still does not return the
`{0, 0, 0}` defaults, because it decodes the stale captured payload. -/
theorem C2_counterexample :
    (read_command_data (read_command_data none [List.range 30]).slot []).result ≠
      .ok defaultCommandData := by decide

/-- **C2** witness: a timed-out invocation on an empty slot does yield the
defaults. -/
theorem C2_timeout_and_stale_slot_witness :
    (read_command_data none []).result = .ok defaultCommandData :=
  (C2_timeout_and_stale_slot none [] rfl).1

/-! ### Claim C4 -/

/-- **C4** (amended): `stop_notify` runs on the timeout path and on the
successful-decode path, but *not* when decoding the captured payload
fails: the `struct.unpack` exception propagates before the
`client.stop_notify(...)` line is reached (there is no `try/finally`), so
the subscription is left open on that path. -/
theorem C4_stop_notify (slot : Option (List Nat)) (notifs : List (List Nat)) :
    ((∃ r, (read_command_data slot notifs).result = .ok r) →
      (read_command_data slot notifs).actions =
        [.startNotify, .writeTrigger, .stopNotify]) ∧
    ((∃ e, (read_command_data slot notifs).result = .error e) →
      (read_command_data slot notifs).actions = [.startNotify, .writeTrigger]) := by
  rcases hs : notifs.foldl (fun _ d => some d) slot with _ | data
  · simp [read_command_data, hs]
  · rcases hd : decodeCommandPayload data with e | raw <;>
      simp [read_command_data, hs, hd]

/-- **C4** counterexample to the claim as stated: a 3-byte captured payload
makes the decode raise, and `stop_notify` is never reached. -/
theorem C4_counterexample :
    BleAction.stopNotify ∉ (read_command_data none [[0, 0, 0]]).actions := by decide

/-- **C4** witness: on the timeout path the subscription is released. -/
theorem C4_stop_notify_witness :
    (read_command_data none []).actions =
      [BleAction.startNotify, BleAction.writeTrigger, BleAction.stopNotify] :=
  (C4_stop_notify none []).1 ⟨defaultCommandData, rfl⟩

/-! ### Claim C5 -/

/-- **C5**: for every successfully decoded measurement tuple `m`, the
assembled reading maps index 4 to `radon_day_average`, index 5 to
`radon_total_average`, index 6 / 100 to `temperature`, index 7 / 50 to
`pressure`, index 8 to `co2`, index 9 to `voc` and index 1 / 2 to the
relative humidity. -/
theorem C5_field_mapping (b m : List Nat) (s ts : String) (c : CommandResult)
    (hm : unpack4B8H b = .ok m) :
    (read_and_format m s c ts).lookup "radon_day_average" =
        some (.num (m.getD 4 0 : ℝ)) ∧
      (read_and_format m s c ts).lookup "radon_total_average" =
        some (.num (m.getD 5 0 : ℝ)) ∧
      (read_and_format m s c ts).lookup "temperature" =
        some (.num ((m.getD 6 0 : ℝ) / 100)) ∧
      (read_and_format m s c ts).lookup "pressure" =
        some (.num ((m.getD 7 0 : ℝ) / 50)) ∧
      (read_and_format m s c ts).lookup "co2" = some (.num (m.getD 8 0 : ℝ)) ∧
      (read_and_format m s c ts).lookup "voc" = some (.num (m.getD 9 0 : ℝ)) ∧
      (read_and_format m s c ts).lookup "humidity_rel" =
        some (.num ((m.getD 1 0 : ℝ) / 2)) := by
  refine ⟨rfl, rfl, rfl, rfl, ?_, ?_, rfl⟩
  · have hco : (read_and_format m s c ts).lookup "co2" =
        some (.num ((m.getD 8 0 : ℝ) * 1.0)) := rfl
    rw [hco]
    norm_num
  · have hvo : (read_and_format m s c ts).lookup "voc" =
        some (.num ((m.getD 9 0 : ℝ) * 1.0)) := rfl
    rw [hvo]
    norm_num

/-- **C5** witness: the mapping evaluated on the decode of the 20-byte
input `[0, …, 19]` (temperature slot). -/
theorem C5_field_mapping_witness :
    (read_and_format [0, 1, 2, 3, 1284, 1798, 2312, 2826, 3340, 3854, 4368, 4882]
        "2930123456" defaultCommandData "ts").lookup "temperature" =
      some (.num (((2312 : ℕ) : ℝ) / 100)) :=
  (C5_field_mapping (List.range 20)
    [0, 1, 2, 3, 1284, 1798, 2312, 2826, 3340, 3854, 4368, 4882]
    "2930123456" "ts" defaultCommandData (by decide)).2.2.1

/-! ### Claim C6 -/

/-- **C6** (amended): a session against a device reporting zero services
returns without error, but the reading it yields is the *empty* dictionary
`{}`: it contains no fields at all, rather than the numeric fields with
zero values. -/
theorem C6_empty_services (rawMeas : List Nat) (mn sn : String)
    (slot : Option (List Nat)) (notifs : List (List Nat)) (ts : String) :
    connect [] rawMeas mn sn slot notifs ts = .ok [] := rfl

/-- **C6** counterexample to the claim as stated: in the reading produced
for a device with zero services, the numeric field `radon_day_average` is
not present with value 0 — it is absent. -/
theorem C6_counterexample :
    (connect [] [] "" "" none [] "ts").map (fun d => d.lookup "radon_day_average") ≠
      .ok (some (Val.num 0)) := by
  simp [connect, Except.map]

/-! ### Claim C7 -/

/-- `pyRound` agrees with `round` away from exact halves and never moves a
value past an integer bound from above. -/
theorem pyRound_le_int (n : ℤ) (q : ℚ) (h : q ≤ n) : pyRound q ≤ n := by
  unfold pyRound
  split
  · rename_i hh
    have hf : (⌊q⌋ : ℚ) < n := by
      have := Int.floor_le q
      linarith
    have hfi : ⌊q⌋ < n := by exact_mod_cast hf
    split <;> omega
  · rw [round_eq]
    have h2 : ⌊q + 1 / 2⌋ ≤ ⌊(n : ℚ) + 1 / 2⌋ := Int.floor_le_floor (by linarith)
    have h3 : ⌊(n : ℚ) + 1 / 2⌋ = n := by
      rw [Int.floor_int_add]
      norm_num
    omega

/-- `pyRound` never moves a value past an integer bound from below. -/
theorem int_le_pyRound (n : ℤ) (q : ℚ) (h : (n : ℚ) ≤ q) : n ≤ pyRound q := by
  unfold pyRound
  split
  · rename_i hh
    have hf : (n : ℚ) < (⌊q⌋ : ℚ) + 1 := by linarith
    have hfi : n < ⌊q⌋ + 1 := by exact_mod_cast hf
    split <;> omega
  · rw [round_eq]
    exact Int.le_floor.mpr (by linarith)

/-- `pyRound` is the identity on integers. -/
theorem pyRound_intCast (n : ℤ) : pyRound (n : ℚ) = n := by
  unfold pyRound
  rw [Int.floor_intCast]
  norm_num

/-- Clamping to `[0, 100]` commutes with `pyRound`: the source's
`max(0, min(100, round(x)))` equals the spec's `round(clamp(x, 0, 100))`. -/
theorem pyRound_clamp_comm (q : ℚ) :
    max 0 (min 100 (pyRound q)) = pyRound (max 0 (min 100 q)) := by
  rcases le_total q 0 with h | h
  · rw [min_eq_right (h.trans (by norm_num)), max_eq_left h]
    have h1 : pyRound q ≤ 0 := pyRound_le_int 0 q (by exact_mod_cast h)
    rw [min_eq_right (h1.trans (by norm_num)), max_eq_left h1]
    simpa using (pyRound_intCast 0).symm
  · rcases le_total q 100 with h2 | h2
    · rw [min_eq_right h2, max_eq_right h]
      have hl : 0 ≤ pyRound q := int_le_pyRound 0 q (by exact_mod_cast h)
      have hu : pyRound q ≤ 100 := pyRound_le_int 100 q (by exact_mod_cast h2)
      rw [min_eq_right hu, max_eq_right hl]
    · rw [min_eq_left h2, max_eq_right (by norm_num : (0 : ℚ) ≤ 100)]
      have hu : (100 : ℤ) ≤ pyRound q := int_le_pyRound 100 q (by exact_mod_cast h2)
      rw [min_eq_left hu, max_eq_right (by norm_num : (0 : ℤ) ≤ 100)]
      simpa using (pyRound_intCast 100).symm

/-- **C7**: the battery-percentage mapping of `read_command_data` yields 0
for every voltage ≤ 2.2, 100 for every voltage ≥ 3.2 and 50 at 2.7; the
result always lies in `[0, 100]`; and the source's clamp-after-round form
coincides with the spec's round-after-clamp formula
`round(clamp(((v − 2.2) / (3.2 − 2.2)) · 100, 0, 100))`. -/
theorem C7_battery_percentage (v : ℚ) :
    (v ≤ 22 / 10 → batteryPercentage v = 0) ∧
      (32 / 10 ≤ v → batteryPercentage v = 100) ∧
      batteryPercentage (27 / 10) = 50 ∧
      0 ≤ batteryPercentage v ∧ batteryPercentage v ≤ 100 ∧
      batteryPercentage v =
        pyRound (max 0 (min 100 ((v - 22 / 10) / (32 / 10 - 22 / 10) * 100))) := by
  refine ⟨?_, ?_, ?_, ?_, ?_, ?_⟩
  · intro h
    have hq : (v - 22 / 10) / (32 / 10 - 22 / 10) * 100 ≤ 0 := by
      rw [show (32 : ℚ) / 10 - 22 / 10 = 1 by norm_num, div_one]
      nlinarith
    have h1 : pyRound ((v - 22 / 10) / (32 / 10 - 22 / 10) * 100) ≤ 0 :=
      pyRound_le_int 0 _ (by exact_mod_cast hq)
    unfold batteryPercentage
    rw [min_eq_right (h1.trans (by norm_num)), max_eq_left h1]
  · intro h
    have hq : (100 : ℚ) ≤ (v - 22 / 10) / (32 / 10 - 22 / 10) * 100 := by
      rw [show (32 : ℚ) / 10 - 22 / 10 = 1 by norm_num, div_one]
      nlinarith
    have h1 : (100 : ℤ) ≤ pyRound ((v - 22 / 10) / (32 / 10 - 22 / 10) * 100) :=
      int_le_pyRound 100 _ (by exact_mod_cast hq)
    unfold batteryPercentage
    rw [min_eq_left h1, max_eq_right (by norm_num : (0 : ℤ) ≤ 100)]
  · unfold batteryPercentage
    rw [show ((27 : ℚ) / 10 - 22 / 10) / (32 / 10 - 22 / 10) * 100 = ((50 : ℤ) : ℚ)
        by norm_num,
      pyRound_intCast]
    norm_num
  · exact le_max_left 0 _
  · exact max_le (by norm_num) (min_le_left 100 _)
  · exact pyRound_clamp_comm _

/-- **C7** witness: at 2.0 V the percentage is 0. -/
theorem C7_battery_percentage_witness :
    (2 : ℚ) ≤ 22 / 10 ∧ batteryPercentage 2 = 0 :=
  ⟨by norm_num, (C7_battery_percentage 2).1 (by norm_num)⟩

/-! ### Claim C10 -/

/-- Lower numeric bound for the exponential factor of the saturation
vapor pressure at 20 °C: `exp(352.4 / 263.12) = exp(4405/3289) ≥ 3.7925`,
from `exp 1 > 2.7182818283` and three series terms of `exp(1116/3289)`. -/
theorem exp_svp_lb : (3.7925 : ℝ) ≤ Real.exp (4405 / 3289) := by
  have hy : (0 : ℝ) ≤ 1116 / 3289 := by norm_num
  have hsum := Real.sum_le_exp_of_nonneg hy 3
  have hsum' : 1 + 1116 / 3289 + ((1116 : ℝ) / 3289) ^ 2 / 2 ≤
      Real.exp (1116 / 3289) := by
    refine le_trans (le_of_eq ?_) hsum
    rw [Finset.sum_range_succ, Finset.sum_range_succ, Finset.sum_range_succ,
      Finset.sum_range_zero]
    norm_num [Nat.factorial_zero, Nat.factorial_one, Nat.factorial_two]
  have hsplit : Real.exp ((4405 : ℝ) / 3289) =
      Real.exp 1 * Real.exp (1116 / 3289) := by
    rw [← Real.exp_add]
    norm_num
  have he1 : (2.7182818283 : ℝ) ≤ Real.exp 1 := le_of_lt Real.exp_one_gt_d9
  rw [hsplit]
  calc (3.7925 : ℝ) ≤
      2.7182818283 * (1 + 1116 / 3289 + ((1116 : ℝ) / 3289) ^ 2 / 2) := by norm_num
    _ ≤ Real.exp 1 * Real.exp (1116 / 3289) :=
        mul_le_mul he1 hsum' (by norm_num) (le_of_lt (Real.exp_pos 1))

/-- Upper numeric bound for the exponential factor of the saturation
vapor pressure at 20 °C: `exp(4405/3289) ≤ 3.825`, from
`exp 1 < 2.7182818286` and the three-term series bound on `exp(1116/3289)`. -/
theorem exp_svp_ub : Real.exp ((4405 : ℝ) / 3289) ≤ 3.825 := by
  have hy1 : (0 : ℝ) ≤ 1116 / 3289 := by norm_num
  have hy2 : (1116 : ℝ) / 3289 ≤ 1 := by norm_num
  have hb := Real.exp_bound' hy1 hy2 (n := 3) (by norm_num)
  have hf3 : Nat.factorial 3 = 6 := rfl
  have hb' : Real.exp ((1116 : ℝ) / 3289) ≤
      1 + 1116 / 3289 + ((1116 : ℝ) / 3289) ^ 2 / 2 +
        ((1116 : ℝ) / 3289) ^ 3 * 4 / 18 := by
    refine le_trans hb (le_of_eq ?_)
    rw [Finset.sum_range_succ, Finset.sum_range_succ, Finset.sum_range_succ,
      Finset.sum_range_zero]
    norm_num [hf3, Nat.factorial_zero, Nat.factorial_one, Nat.factorial_two]
  have hsplit : Real.exp ((4405 : ℝ) / 3289) =
      Real.exp 1 * Real.exp (1116 / 3289) := by
    rw [← Real.exp_add]
    norm_num
  have he1 : Real.exp 1 ≤ 2.7182818286 := le_of_lt Real.exp_one_lt_d9
  rw [hsplit]
  calc Real.exp 1 * Real.exp ((1116 : ℝ) / 3289) ≤
      2.7182818286 * (1 + 1116 / 3289 + ((1116 : ℝ) / 3289) ^ 2 / 2 +
        ((1116 : ℝ) / 3289) ^ 3 * 4 / 18) :=
        mul_le_mul he1 hb' (le_of_lt (Real.exp_pos _)) (by norm_num)
    _ ≤ 3.825 := by norm_num

/-- **C10** (amended): `absolute_humidity(50, 20, 1013)` lies in
`(8.6, 8.7)`, i.e. approximately 8.65 g/m³, and the result is strictly
positive for every relative humidity in the half-open range `(0, 100]`
(not `[0, 100]`: at `rh = 0` the formula gives exactly 0), every
temperature in `[−40, 60]` and every pressure in `[900, 1100]`. -/
theorem C10_absolute_humidity :
    (8.6 < calc_absolute_humidity 50 20 1013 ∧
      calc_absolute_humidity 50 20 1013 < 8.7) ∧
    ∀ rh t p : ℝ, 0 < rh → rh ≤ 100 → -40 ≤ t → t ≤ 60 → 900 ≤ p → p ≤ 1100 →
      0 < calc_absolute_humidity rh t p := by
  constructor
  · have harg : (17.62 * 20 : ℝ) / (243.12 + 20) = 4405 / 3289 := by norm_num
    have hz : (10 : ℝ) ^ (-6 : ℤ) = 1 / 1000000 := by norm_num
    have hlb := exp_svp_lb
    have hub := exp_svp_ub
    simp only [calc_absolute_humidity, calc_saturation_vapor_pressure]
    rw [harg, hz]
    have hring : ∀ E : ℝ,
        50 * ((1.0016 + 3.15 * (1 / 1000000) * 1013 - 0.074 / 1013) * (6.112 * E)) /
            (461.5 * (20 + 273.15)) * 1000 =
          50 * (1.0016 + 3.15 * (1 / 1000000) * 1013 - 0.074 / 1013) * 6.112 * 1000 /
            (461.5 * (20 + 273.15)) * E := fun E => by ring
    rw [hring]
    have hKpos : (0 : ℝ) ≤
        50 * (1.0016 + 3.15 * (1 / 1000000) * 1013 - 0.074 / 1013) * 6.112 * 1000 /
          (461.5 * (20 + 273.15)) := by norm_num
    constructor
    · exact lt_of_lt_of_le (by norm_num) (mul_le_mul_of_nonneg_left hlb hKpos)
    · exact lt_of_le_of_lt (mul_le_mul_of_nonneg_left hub hKpos) (by norm_num)
  · intro rh t p hrh hrh2 ht ht2 hp hp2
    have hp0 : (0 : ℝ) < p := by linarith
    have hfrac : (0.074 : ℝ) / p ≤ 0.001 := by
      rw [div_le_iff₀ hp0]
      nlinarith
    have hzp : (0 : ℝ) ≤ 3.15 * (10 : ℝ) ^ (-6 : ℤ) * p := by positivity
    have hfp : 0 < 1.0016 + 3.15 * (10 : ℝ) ^ (-6 : ℤ) * p - 0.074 / p := by
      linarith
    have hexp : 0 < Real.exp ((17.62 * t) / (243.12 + t)) := Real.exp_pos _
    have hden : (0 : ℝ) < 461.5 * (t + 273.15) :=
      mul_pos (by norm_num) (by linarith)
    simp only [calc_absolute_humidity, calc_saturation_vapor_pressure]
    exact mul_pos
      (div_pos (mul_pos hrh (mul_pos hfp (mul_pos (by norm_num) hexp))) hden)
      (by norm_num)

/-- **C10** counterexample to the claim as stated: `rh = 0` lies in the
claimed range `[0, 100]`, yet the absolute humidity there is exactly 0,
not strictly positive. -/
theorem C10_counterexample :
    (0 : ℝ) ≤ 0 ∧ (0 : ℝ) ≤ 100 ∧ ¬(0 < calc_absolute_humidity 0 20 1013) := by
  refine ⟨le_refl 0, by norm_num, ?_⟩
  have h : calc_absolute_humidity 0 20 1013 = 0 := by
    simp [calc_absolute_humidity]
  rw [h]
  exact lt_irrefl 0

/-- **C10** witness: the positivity part applied at `(50, 20, 1013)`. -/
theorem C10_absolute_humidity_witness :
    0 < calc_absolute_humidity 50 20 1013 :=
  C10_absolute_humidity.2 50 20 1013 (by norm_num) (by norm_num) (by norm_num)
    (by norm_num) (by norm_num) (by norm_num)

end WavePlus
